import Mathlib

/-!
Verification of the CSV-chat script (talk_with_csv.py): a shallow embedding
of its gateway fallback logic (call_gemini_api), response decoder
(decode_response) and result dispatcher (write_answer), together with a
model of the JSON parsing (json.loads) and the Python container operations
(membership test, subscription, iteration) those functions rely on.
-/

/-- JSON values as produced by the json module: null, booleans, numbers
(integer numerals in this model), strings, arrays and objects.  Objects are
association lists with distinct keys in insertion order, mirroring a Python
dict built by json.loads. -/
inductive Json where
  | null
  | bool (b : Bool)
  | num (n : Int)
  | str (s : String)
  | arr (elems : List Json)
  | obj (fields : List (String × Json))

/-- JSON insignificant whitespace characters (space, tab, newline, carriage
return), as accepted by json.loads around tokens, recognised by their code
points. -/
def isJsonWs (c : Char) : Bool :=
  [32, 9, 10, 13].contains c.toNat

/-- Drop leading JSON whitespace from a character stream. -/
def skipWs : List Char → List Char
  | [] => []
  | c :: cs => if isJsonWs c then skipWs cs else c :: cs

/-- Value of a decimal digit character. -/
def digitVal (c : Char) : Nat := c.toNat - 48

/-- Numeric value of a list of decimal digit characters. -/
def digitsToNat (ds : List Char) : Nat :=
  ds.foldl (fun a c => a * 10 + digitVal c) 0

/-- Hexadecimal digit value, for the \u escape of JSON strings. -/
def hexVal (c : Char) : Option Nat :=
  if c.isDigit then some (digitVal c)
  else if 97 ≤ c.toNat ∧ c.toNat ≤ 102 then some (c.toNat - 87)
  else if 65 ≤ c.toNat ∧ c.toNat ≤ 70 then some (c.toNat - 55)
  else none

/-- Translation table of the single-character JSON string escapes; the
translated characters are written by code point. -/
def escChar : Char → Option Char
  | '"' => some (Char.ofNat 34)
  | '\\' => some (Char.ofNat 92)
  | '/' => some (Char.ofNat 47)
  | 'b' => some (Char.ofNat 8)
  | 'f' => some (Char.ofNat 12)
  | 'n' => some (Char.ofNat 10)
  | 'r' => some (Char.ofNat 13)
  | 't' => some (Char.ofNat 9)
  | _ => none

/-- Body of a JSON string literal after the opening quote: returns the
decoded characters and the remainder after the closing quote.  Control
characters below 0x20 are rejected, escapes are translated, \uXXXX is
decoded to the scalar with that code. -/
def parseStringBody : List Char → Option (List Char × List Char)
  | [] => none
  | c :: rest =>
    if c == '"' then some ([], rest)
    else if c == '\\' then
      match rest with
      | [] => none
      | e :: rest2 =>
        if e == 'u' then
          match rest2 with
          | h1 :: h2 :: h3 :: h4 :: rest3 =>
            match hexVal h1, hexVal h2, hexVal h3, hexVal h4 with
            | some a, some b, some c3, some d =>
              match parseStringBody rest3 with
              | some (s, r) =>
                  some (Char.ofNat (((a * 16 + b) * 16 + c3) * 16 + d) :: s, r)
              | none => none
            | _, _, _, _ => none
          | _ => none
        else
          match escChar e with
          | some ec =>
            match parseStringBody rest2 with
            | some (s, r) => some (ec :: s, r)
            | none => none
          | none => none
    else if c.toNat < 32 then none
    else
      match parseStringBody rest with
      | some (s, r) => some (c :: s, r)
      | none => none

/-- Integer numeral parsing for JSON numbers: optional minus sign, digits
with no superfluous leading zero; numerals continuing with a fraction dot
or an exponent are outside this integer-fragment model and rejected. -/
def parseNatNum (cs : List Char) (neg : Bool) : Option (Json × List Char) :=
  match cs.span Char.isDigit with
  | (ds, rest) =>
    if ds.isEmpty then none
    else if 1 < ds.length && ds.headD '0' == '0' then none
    else if rest.headD ' ' == '.' || rest.headD ' ' == 'e' || rest.headD ' ' == 'E' then none
    else
      let n : Int := Int.ofNat (digitsToNat ds)
      some (.num (if neg then -n else n), rest)

/-- JSON number parsing dispatch over the optional leading minus sign. -/
def parseNumber (cs : List Char) : Option (Json × List Char) :=
  match cs with
  | '-' :: cs1 => parseNatNum cs1 true
  | _ => parseNatNum cs false

/-- Match a literal keyword (true, false, null) and return the remainder. -/
def dropLit : List Char → List Char → Option (List Char)
  | [], cs => some cs
  | p :: ps, c :: cs => if p == c then dropLit ps cs else none
  | _ :: _, [] => none

/-- Replace the value at an existing key, keeping its position, or append a
new pair: the duplicate-key policy of a Python dict (first position, last
value wins). -/
def upsertField (fs : List (String × Json)) (k : String) (v : Json) :
    List (String × Json) :=
  if fs.any (fun p => p.1 == k) then
    fs.map (fun p => if p.1 == k then (k, v) else p)
  else fs ++ [(k, v)]

/-- Collapse duplicate keys of a parsed member list the way dict
construction does in Python. -/
def collapseFields (fs : List (String × Json)) : List (String × Json) :=
  fs.foldl (fun acc p => upsertField acc p.1 p.2) []

mutual

/-- Recursive-descent JSON value parsing (fuel-indexed for termination),
modelling the grammar accepted by json.loads on the integer-numeral
fragment: strings, numbers, arrays, objects, true, false, null, with
insignificant whitespace allowed around tokens. -/
def parseValue : Nat → List Char → Option (Json × List Char)
  | 0, _ => none
  | fuel + 1, cs =>
    match skipWs cs with
    | [] => none
    | c :: rest =>
      if c == '"' then
        match parseStringBody rest with
        | some (s, r) => some (.str (String.mk s), r)
        | none => none
      else if c == '-' || c.isDigit then parseNumber (c :: rest)
      else if c == '[' then
        match skipWs rest with
        | ']' :: r2 => some (.arr [], r2)
        | r2 =>
          match parseElems fuel r2 with
          | some (es, r) => some (.arr es, r)
          | none => none
      else if c == '\x7b' then
        match skipWs rest with
        | '\x7d' :: r2 => some (.obj [], r2)
        | r2 =>
          match parseMembers fuel r2 with
          | some (fs, r) => some (.obj (collapseFields fs), r)
          | none => none
      else
        match dropLit ['t', 'r', 'u', 'e'] (c :: rest) with
        | some r => some (.bool true, r)
        | none =>
          match dropLit ['f', 'a', 'l', 's', 'e'] (c :: rest) with
          | some r => some (.bool false, r)
          | none =>
            match dropLit ['n', 'u', 'l', 'l'] (c :: rest) with
            | some r => some (.null, r)
            | none => none

/-- Comma-separated JSON array elements up to the closing bracket. -/
def parseElems : Nat → List Char → Option (List Json × List Char)
  | 0, _ => none
  | fuel + 1, cs =>
    match parseValue fuel cs with
    | none => none
    | some (v, r) =>
      match skipWs r with
      | ',' :: r2 =>
        match parseElems fuel r2 with
        | some (es, rr) => some (v :: es, rr)
        | none => none
      | ']' :: r2 => some ([v], r2)
      | _ => none

/-- Comma-separated JSON object members up to the closing brace. -/
def parseMembers : Nat → List Char → Option (List (String × Json) × List Char)
  | 0, _ => none
  | fuel + 1, cs =>
    match skipWs cs with
    | '"' :: r =>
      match parseStringBody r with
      | none => none
      | some (ks, r1) =>
        match skipWs r1 with
        | ':' :: r2 =>
          match parseValue fuel r2 with
          | none => none
          | some (v, r3) =>
            match skipWs r3 with
            | ',' :: r4 =>
              match parseMembers fuel r4 with
              | some (fs, rr) => some ((String.mk ks, v) :: fs, rr)
              | none => none
            | '\x7d' :: r4 => some ([(String.mk ks, v)], r4)
            | _ => none
        | _ => none
    | _ => none

end

/-- Model of json.loads on the integer-numeral JSON fragment: parse one
value, allowing leading and trailing whitespace and nothing else; none
models a raised json.JSONDecodeError. -/
def jsonLoads (s : String) : Option Json :=
  match parseValue (2 * s.length + 4) s.data with
  | some (v, rest) => if (skipWs rest).isEmpty then some v else none
  | none => none

/-!
Python runtime operations used by the script, modelled on Json values: the
exceptions that can arise, the membership test (in), string-key
subscription (d[k]), iteration and integer subscription (x[i]).
-/

/-- Python exception classes raised by the modelled operations. -/
inductive PyErr where
  | typeError
  | keyError (k : String)
  | indexError
  | valueError

/-- Lookup of a string key in a dict modelled as an association list with
keys in insertion order. -/
def lookupField : List (String × Json) → String → Option Json
  | [], _ => none
  | (k2, v) :: rest, k => if k2 == k then some v else lookupField rest k

/-- Substring test on character lists, for the Python expression
k in s when s is a string. -/
def charsInfix (needle : List Char) (hay : List Char) : Bool :=
  if needle.isPrefixOf hay then true
  else
    match hay with
    | [] => false
    | _ :: rest => charsInfix needle rest

/-- Python equality between a string and an arbitrary JSON value: equal
exactly to the same string, False against any other value (no error). -/
def strEqJson (k : String) : Json → Bool
  | .str s => k == s
  | _ => false

/-- Python membership test k in v for a string k: key lookup on a dict,
element equality on a list, substring test on a string; a TypeError on
values that are not containers (numbers, booleans, None). -/
def pyContains (v : Json) (k : String) : Except PyErr Bool :=
  match v with
  | .obj fs => .ok (lookupField fs k).isSome
  | .arr xs => .ok (xs.any (strEqJson k))
  | .str s => .ok (charsInfix k.data s.data)
  | _ => .error .typeError

/-- Python subscription v[k] with a string key: dict lookup (KeyError when
absent); a TypeError on lists, strings and non-containers, whose indices
cannot be strings. -/
def getItem (v : Json) (k : String) : Except PyErr Json :=
  match v with
  | .obj fs =>
    match lookupField fs k with
    | some w => .ok w
    | none => .error (.keyError k)
  | _ => .error .typeError

/-- Python iteration over a JSON value: list elements, string characters,
dict keys; a TypeError on numbers, booleans and None. -/
def pyIter (v : Json) : Except PyErr (List Json) :=
  match v with
  | .arr xs => .ok xs
  | .str s => .ok (s.data.map (fun c => .str (String.mk [c])))
  | .obj fs => .ok (fs.map (fun p => .str p.1))
  | _ => .error .typeError

/-- Python subscription x[i] with a non-negative integer index: list or
string indexing (IndexError when out of range), KeyError on a dict whose
keys are strings, TypeError on numbers, booleans and None. -/
def pyIndex (x : Json) (i : Nat) : Except PyErr Json :=
  match x with
  | .arr xs =>
    match xs.get? i with
    | some v => .ok v
    | none => .error .indexError
  | .str s =>
    match s.data.get? i with
    | some c => .ok (.str (String.mk [c]))
    | none => .error .indexError
  | .obj _ => .error (.keyError "")
  | _ => .error .typeError

/-- Hashability of a JSON value when used as a dict key: scalars are
hashable, lists and dicts are not. -/
def isHashable : Json → Bool
  | .arr _ => false
  | .obj _ => false
  | _ => true

/-- Equality test between two hashable JSON values used as dict keys. -/
def jsonKeyEq : Json → Json → Bool
  | .null, .null => true
  | .bool a, .bool b => a == b
  | .num a, .num b => a == b
  | .str a, .str b => a == b
  | _, _ => false

/-!
The streamlit rendering surface and the pandas constructions the script
performs, modelled as emitted output events and explicit table values.
-/

/-- Tabular view built by the pandas DataFrame constructor from row-major
data with explicit column labels. -/
structure DataFrame where
  columns : List Json
  rows : List (List Json)

/-- Chart frame after set_index on the first column: the index column
(name and values) followed by the remaining per-column series. -/
structure ChartDF where
  indexName : Json
  indexVals : List Json
  series : List (Json × List Json)

/-- Rendered output events of one write_answer call: st.write of a value,
st.table, st.bar_chart, st.line_chart, and the inline error text
st.write(msg ++ exception) emitted by an except branch. -/
inductive Output where
  | write (v : Json)
  | tableOut (df : DataFrame)
  | barChartOut (df : ChartDF)
  | lineChartOut (df : ChartDF)
  | errorWrite (context : String) (e : PyErr)

/-- Model of the pandas DataFrame constructor pd.DataFrame(data,
columns=columns) on row-major data: the column labels must form a list and
the data a list of rows, each row a list whose length matches the column
count; a shape mismatch raises ValueError and non-list payloads raise
TypeError. -/
def pdDataFrameRows (dat : Json) (columns : Json) : Except PyErr DataFrame :=
  match columns, dat with
  | .arr cols, .arr rawRows =>
    match rawRows.mapM (fun r => match r with | .arr cells => some cells | _ => none) with
    | some rws =>
      if rws.all (fun r => r.length == cols.length) then .ok ⟨cols, rws⟩
      else .error .valueError
    | none => .error .typeError
  | _, _ => .error .typeError

/-- Outcome of the remote generate_content call inside call_gemini_api: a
response carrying a text field, a response without one, or a raised
exception. -/
inductive ApiResult where
  | success (text : String)
  | missingText
  | failure

/-- Embedding of call_gemini_api: the text field of a successful response
is returned verbatim; a response without a text field returns the fixed
unexpected-structure JSON string; any exception during the call returns
the fixed error JSON string. -/
def call_gemini_api : ApiResult → String
  | .success t => t
  | .missingText => "\x7b\"answer\": \"Unexpected response structure from the Gemini API.\"\x7d"
  | .failure => "\x7b\"answer\": \"An error occurred while contacting the Gemini API.\"\x7d"

/-- Translation of the Python test response.startswith applied to the
one-character string of an opening brace. -/
def startsWithBrace (s : String) : Bool :=
  match s.data with
  | c :: _ => c == '\x7b'
  | [] => false

/-- Embedding of decode_response: a string that does not begin with an
opening brace is handed to json.loads and the parsed value returned, the
JSONDecodeError of an unparsable string being caught and replaced by the
fixed invalid-format answer dict; a string that does begin with an opening
brace is not parsed and is wrapped whole as the answer value. -/
def decode_response (response : String) : Json :=
  if ¬ startsWithBrace response then
    match jsonLoads response with
    | some v => v
    | none => .obj [("answer", .str "Invalid response format from the Gemini API.")]
  else
    .obj [("answer", .str response)]

/-- List comprehension [f x for x in xs] over a computation that can
raise: the first raised exception aborts the whole comprehension. -/
def listComp (f : Json → Except PyErr Json) : List Json → Except PyErr (List Json)
  | [] => .ok []
  | x :: xs =>
    match f x with
    | .error e => .error e
    | .ok y =>
      match listComp f xs with
      | .error e => .error e
      | .ok ys => .ok (y :: ys)

/-- Insert one column into the accumulating dict of the chart
comprehension, replacing the value of an equal existing key the way a
Python dict does; list and dict keys are unhashable and raise TypeError. -/
def insertChartCol (acc : List (Json × List Json)) (c : Json)
    (series : List Json) : Except PyErr (List (Json × List Json)) :=
  if isHashable c then
    if acc.any (fun p => jsonKeyEq p.1 c) then
      .ok (acc.map (fun p => if jsonKeyEq p.1 c then (c, series) else p))
    else .ok (acc ++ [(c, series)])
  else .error .typeError

/-- Body of the chart dict comprehension: for the i-th column label c the
value is the comprehension [x[i] for x in payload[data-key]], evaluated
anew per column, then inserted under the key c. -/
def buildChartCols (payload : Json) : List Json → Nat →
    List (Json × List Json) → Except PyErr (List (Json × List Json))
  | [], _, acc => .ok acc
  | c :: cs, i, acc =>
    match getItem payload "data" with
    | .error e => .error e
    | .ok dataV =>
      match pyIter dataV with
      | .error e => .error e
      | .ok elems =>
        match listComp (fun x => pyIndex x i) elems with
        | .error e => .error e
        | .ok series =>
          match insertChartCol acc c series with
          | .error e => .error e
          | .ok acc2 => buildChartCols payload cs (i + 1) acc2

/-- Chart construction of the bar and line branches: the dict
comprehension over enumerate(payload[columns-key]) building one series per
column, the DataFrame over the resulting dict, and set_index on the first
column (IndexError when there is no column). -/
def buildChartDF (payload : Json) : Except PyErr ChartDF :=
  match getItem payload "columns" with
  | .error e => .error e
  | .ok colsV =>
    match pyIter colsV with
    | .error e => .error e
    | .ok cols =>
      match buildChartCols payload cols 0 [] with
      | .error e => .error e
      | .ok fields =>
        match fields with
        | [] => .error .indexError
        | (c0, v0) :: rest => .ok ⟨c0, v0, rest⟩

/-- Body of the table try block: response_dict[table][columns] and
response_dict[table][data] subscripted in source order, then the DataFrame
constructed from the row-major data. -/
def tableTry (d : Json) : Except PyErr DataFrame :=
  match getItem d "table" with
  | .error e => .error e
  | .ok t =>
    match getItem t "columns" with
    | .error e => .error e
    | .ok cols =>
      match getItem t "data" with
      | .error e => .error e
      | .ok dat => pdDataFrameRows dat cols

/-- Rendering of the table branch once the key is present: the caption and
table on success, the inline error message of the except branch on any
exception from the try block. -/
def tableRender (d : Json) : List Output :=
  match tableTry d with
  | .ok df => [.write (.str "Generated Table:"), .tableOut df]
  | .error e => [.errorWrite "Error displaying table" e]

/-- Body of the bar-chart try block: response_dict[bar] subscripted, then
the chart frame built from it. -/
def barTry (d : Json) : Except PyErr ChartDF :=
  match getItem d "bar" with
  | .error e => .error e
  | .ok payload => buildChartDF payload

/-- Rendering of the bar branch once the key is present. -/
def barRender (d : Json) : List Output :=
  match barTry d with
  | .ok df => [.write (.str "Generated Bar Chart:"), .barChartOut df]
  | .error e => [.errorWrite "Error creating bar chart" e]

/-- Body of the line-chart try block: response_dict[line] subscripted,
then the chart frame built from it. -/
def lineTry (d : Json) : Except PyErr ChartDF :=
  match getItem d "line" with
  | .error e => .error e
  | .ok payload => buildChartDF payload

/-- Rendering of the line branch once the key is present. -/
def lineRender (d : Json) : List Output :=
  match lineTry d with
  | .ok df => [.write (.str "Generated Line Chart:"), .lineChartOut df]
  | .error e => [.errorWrite "Error creating line chart" e]

/-- Answer branch of write_answer: the membership test and, when the key
is present, st.write of the answer value; neither is inside a try block,
so their exceptions propagate. -/
def answerBranch (d : Json) : Except PyErr (List Output) :=
  match pyContains d "answer" with
  | .error e => .error e
  | .ok false => .ok []
  | .ok true =>
    match getItem d "answer" with
    | .error e => .error e
    | .ok v => .ok [.write v]

/-- Table branch of write_answer: the membership test outside the try
block, the rendering with its local exception handling inside. -/
def tableBranch (d : Json) : Except PyErr (List Output) :=
  match pyContains d "table" with
  | .error e => .error e
  | .ok false => .ok []
  | .ok true => .ok (tableRender d)

/-- Bar branch of write_answer. -/
def barBranch (d : Json) : Except PyErr (List Output) :=
  match pyContains d "bar" with
  | .error e => .error e
  | .ok false => .ok []
  | .ok true => .ok (barRender d)

/-- Line branch of write_answer. -/
def lineBranch (d : Json) : Except PyErr (List Output) :=
  match pyContains d "line" with
  | .error e => .error e
  | .ok false => .ok []
  | .ok true => .ok (lineRender d)

/-- Embedding of write_answer: the four key checks run in source order
(answer, table, bar, line), each appending its rendered outputs; an
exception raised outside the try blocks aborts the remaining branches. -/
def write_answer (d : Json) : Except PyErr (List Output) :=
  match answerBranch d with
  | .error e => .error e
  | .ok a =>
    match tableBranch d with
    | .error e => .error e
    | .ok t =>
      match barBranch d with
      | .error e => .error e
      | .ok b =>
        match lineBranch d with
        | .error e => .error e
        | .ok l => .ok (a ++ t ++ b ++ l)


/-- Test whether a JSON value is an object, the shape the declared dict
return annotation of decode_response promises. -/
def isObjDict : Json → Bool
  | .obj _ => true
  | _ => false

/-!
Helper lemmas about the branches of write_answer on dict inputs.
-/

/-- On a dict input the answer branch never raises: it writes the answer
value when the key is present and is silent otherwise. -/
theorem answerBranch_obj (fs : List (String × Json)) :
    answerBranch (.obj fs) =
      .ok (match lookupField fs "answer" with
        | some v => [.write v]
        | none => []) := by
  cases h : lookupField fs "answer" <;>
    simp [answerBranch, pyContains, getItem, h]

/-- On a dict input the table branch never raises. -/
theorem tableBranch_obj (fs : List (String × Json)) :
    tableBranch (.obj fs) =
      .ok (if (lookupField fs "table").isSome then tableRender (.obj fs) else []) := by
  cases h : lookupField fs "table" <;> simp [tableBranch, pyContains, h]

/-- On a dict input the bar branch never raises. -/
theorem barBranch_obj (fs : List (String × Json)) :
    barBranch (.obj fs) =
      .ok (if (lookupField fs "bar").isSome then barRender (.obj fs) else []) := by
  cases h : lookupField fs "bar" <;> simp [barBranch, pyContains, h]

/-- On a dict input the line branch never raises. -/
theorem lineBranch_obj (fs : List (String × Json)) :
    lineBranch (.obj fs) =
      .ok (if (lookupField fs "line").isSome then lineRender (.obj fs) else []) := by
  cases h : lookupField fs "line" <;> simp [lineBranch, pyContains, h]

/-- On a dict input write_answer completes and emits the concatenation of
the four branch outputs in source order. -/
theorem write_answer_obj (fs : List (String × Json)) :
    write_answer (.obj fs) =
      .ok ((match lookupField fs "answer" with
            | some v => [.write v]
            | none => [])
        ++ (if (lookupField fs "table").isSome then tableRender (.obj fs) else [])
        ++ (if (lookupField fs "bar").isSome then barRender (.obj fs) else [])
        ++ (if (lookupField fs "line").isSome then lineRender (.obj fs) else [])) := by
  simp [write_answer, answerBranch_obj, tableBranch_obj, barBranch_obj, lineBranch_obj]

/-- The table rendering always emits at least one output, a table or an
inline error message. -/
theorem tableRender_ne_nil (d : Json) : tableRender d ≠ [] := by
  unfold tableRender; cases tableTry d <;> simp

/-- The bar rendering always emits at least one output. -/
theorem barRender_ne_nil (d : Json) : barRender d ≠ [] := by
  unfold barRender; cases barTry d <;> simp

/-- The line rendering always emits at least one output. -/
theorem lineRender_ne_nil (d : Json) : lineRender d ≠ [] := by
  unfold lineRender; cases lineTry d <;> simp

/-!
Claim theorems.
-/

/-- C1: every string that begins with an opening brace is wrapped unparsed
by decode_response as the literal text of an answer dict. -/
theorem decode_response_brace_verbatim (s : String)
    (h : startsWithBrace s = true) :
    decode_response s = .obj [("answer", .str s)] := by
  simp [decode_response, h]

/-- Witness for C1 at a concrete JSON-shaped string. -/
theorem decode_response_brace_verbatim_witness :
    decode_response "\x7b\"answer\": \"hi\"\x7d"
      = .obj [("answer", .str "\x7b\"answer\": \"hi\"\x7d")] :=
  decode_response_brace_verbatim "\x7b\"answer\": \"hi\"\x7d" rfl

/-- C2: a string that does not begin with an opening brace and parses as
JSON decodes to exactly the parsed value. -/
theorem decode_response_roundtrip (s : String) (v : Json)
    (h1 : startsWithBrace s = false) (h2 : jsonLoads s = some v) :
    decode_response s = v := by
  simp [decode_response, h1, h2]

/-- Witness for C2 at the concrete valid JSON input null. -/
theorem decode_response_roundtrip_witness :
    decode_response "null" = .null :=
  decode_response_roundtrip "null" .null rfl rfl

/-- C3 counterexample: the fixed invalid-format answer is not produced
only by unparsable inputs; a valid JSON input carrying a leading space and
encoding the same dict decodes to the identical value, refuting the
only-input-class part of the claim. -/
theorem decode_response_invalid_not_unique_cex :
    decode_response " \x7b\"answer\": \"Invalid response format from the Gemini API.\"\x7d"
      = .obj [("answer", .str "Invalid response format from the Gemini API.")]
    ∧ startsWithBrace " \x7b\"answer\": \"Invalid response format from the Gemini API.\"\x7d"
      = false
    ∧ jsonLoads " \x7b\"answer\": \"Invalid response format from the Gemini API.\"\x7d"
      = some (.obj [("answer", .str "Invalid response format from the Gemini API.")]) :=
  ⟨rfl, rfl, rfl⟩

/-- C3 amended: every string that does not begin with an opening brace and
fails to parse as JSON decodes to the fixed invalid-format answer (without
that being the only input class producing this value). -/
theorem decode_response_invalid_fallback (s : String)
    (h1 : startsWithBrace s = false) (h2 : jsonLoads s = none) :
    decode_response s
      = .obj [("answer", .str "Invalid response format from the Gemini API.")] := by
  simp [decode_response, h1, h2]

/-- Witness for the amended C3 at a concrete unparsable input. -/
theorem decode_response_invalid_fallback_witness :
    decode_response "hello"
      = .obj [("answer", .str "Invalid response format from the Gemini API.")] :=
  decode_response_invalid_fallback "hello" rfl rfl

/-- C4 counterexample: on a gateway failure the decoded structured result
is not the answer dict carrying the inner human-readable message. -/
theorem gateway_failure_inner_answer_cex :
    decode_response (call_gemini_api .failure)
      ≠ .obj [("answer", .str "An error occurred while contacting the Gemini API.")] := by
  intro h
  have h2 : Json.obj [("answer",
        .str "\x7b\"answer\": \"An error occurred while contacting the Gemini API.\"\x7d")]
      = .obj [("answer", .str "An error occurred while contacting the Gemini API.")] := h
  injection h2 with h3
  injection h3 with h4 h5
  injection h4 with h6 h7
  injection h7 with h8
  exact absurd h8 (by decide)

/-- C4 amended: a failed gateway call returns the fixed error JSON string
and the pipeline renders that entire string as the answer text; a response
without a text field returns the fixed unexpected-structure JSON string,
rendered the same way. -/
theorem gateway_failure_pipeline :
    call_gemini_api .failure
      = "\x7b\"answer\": \"An error occurred while contacting the Gemini API.\"\x7d"
    ∧ write_answer (decode_response (call_gemini_api .failure))
      = .ok [.write (.str "\x7b\"answer\": \"An error occurred while contacting the Gemini API.\"\x7d")]
    ∧ call_gemini_api .missingText
      = "\x7b\"answer\": \"Unexpected response structure from the Gemini API.\"\x7d"
    ∧ write_answer (decode_response (call_gemini_api .missingText))
      = .ok [.write (.str "\x7b\"answer\": \"Unexpected response structure from the Gemini API.\"\x7d")] :=
  ⟨rfl, rfl, rfl, rfl⟩

/-- C5: on a decoded mapping the dispatcher checks the four keys
independently and emits the outputs of every present key, concatenated in
the fixed source order answer, table, bar, line; each segment is nonempty
exactly when its key is present. -/
theorem write_answer_dispatch (fs : List (String × Json)) :
    ∃ a t b l : List Output,
      answerBranch (.obj fs) = .ok a
      ∧ tableBranch (.obj fs) = .ok t
      ∧ barBranch (.obj fs) = .ok b
      ∧ lineBranch (.obj fs) = .ok l
      ∧ write_answer (.obj fs) = .ok (a ++ t ++ b ++ l)
      ∧ (a ≠ [] ↔ (lookupField fs "answer").isSome = true)
      ∧ (t ≠ [] ↔ (lookupField fs "table").isSome = true)
      ∧ (b ≠ [] ↔ (lookupField fs "bar").isSome = true)
      ∧ (l ≠ [] ↔ (lookupField fs "line").isSome = true) := by
  refine ⟨_, _, _, _, answerBranch_obj fs, tableBranch_obj fs, barBranch_obj fs,
    lineBranch_obj fs, write_answer_obj fs, ?_, ?_, ?_, ?_⟩
  · cases h : lookupField fs "answer" <;> simp [h]
  · cases h : lookupField fs "table" <;> simp [h, tableRender_ne_nil]
  · cases h : lookupField fs "bar" <;> simp [h, barRender_ne_nil]
  · cases h : lookupField fs "line" <;> simp [h, lineRender_ne_nil]

/-- C6 counterexample: a reachable decoded input on which write_answer
does not complete; decoding the valid JSON text 42 yields a number, and
the very first key-membership test on it raises an uncaught TypeError. -/
theorem write_answer_total_cex :
    decode_response "42" = .num 42
    ∧ write_answer (.num 42) = .error .typeError :=
  ⟨rfl, rfl⟩

/-- C6 amended: render-shape failures inside the table, bar and line paths
are caught locally, surfaced as inline error messages, and do not abort
the remaining paths, and write_answer completes on every decoded mapping;
but on a decoded value that is not a dict, list or string the membership
test itself raises an uncaught TypeError, so completion does not hold for
every decoded input. -/
theorem write_answer_error_containment :
    (∀ fs : List (String × Json), ∃ outs, write_answer (.obj fs) = .ok outs)
    ∧ write_answer (.obj [("answer", .str "x"), ("table", .num 0),
        ("bar", .obj [("columns", .arr [.str "Cat", .str "V"]),
          ("data", .arr [.arr [.str "A", .num 1], .arr [.str "B", .num 2]])])])
      = .ok [.write (.str "x"),
          .errorWrite "Error displaying table" .typeError,
          .write (.str "Generated Bar Chart:"),
          .barChartOut ⟨.str "Cat", [.str "A", .str "B"], [(.str "V", [.num 1, .num 2])]⟩] :=
  ⟨fun fs => ⟨_, write_answer_obj fs⟩, rfl⟩

/-- C7: the bar and line renderers transpose column-oriented data into
per-column series and index them by the first column; on the payload with
columns Cat, V and rows (A, 1), (B, 2) the series rendered for V is 1, 2
under the category axis A, B. -/
theorem chart_transpose_series :
    write_answer (.obj [("bar", .obj [("columns", .arr [.str "Cat", .str "V"]),
        ("data", .arr [.arr [.str "A", .num 1], .arr [.str "B", .num 2]])])])
      = .ok [.write (.str "Generated Bar Chart:"),
          .barChartOut ⟨.str "Cat", [.str "A", .str "B"], [(.str "V", [.num 1, .num 2])]⟩]
    ∧ write_answer (.obj [("line", .obj [("columns", .arr [.str "Cat", .str "V"]),
        ("data", .arr [.arr [.str "A", .num 1], .arr [.str "B", .num 2]])])])
      = .ok [.write (.str "Generated Line Chart:"),
          .lineChartOut ⟨.str "Cat", [.str "A", .str "B"], [(.str "V", [.num 1, .num 2])]⟩] :=
  ⟨rfl, rfl⟩

/-- C8: both fixed gateway fallback strings begin with an opening brace,
so composing the gateway with the decoder yields an answer whose text is
the entire raw JSON fallback string, not the inner message. -/
theorem gateway_fallbacks_decode_raw :
    startsWithBrace (call_gemini_api .failure) = true
    ∧ startsWithBrace (call_gemini_api .missingText) = true
    ∧ decode_response (call_gemini_api .failure)
      = .obj [("answer",
          .str "\x7b\"answer\": \"An error occurred while contacting the Gemini API.\"\x7d")]
    ∧ decode_response (call_gemini_api .missingText)
      = .obj [("answer",
          .str "\x7b\"answer\": \"Unexpected response structure from the Gemini API.\"\x7d")] :=
  ⟨rfl, rfl, rfl, rfl⟩

/-- C9: on a bar or line payload whose data is a flat nonempty list of
numbers, the shape the prompt template dictates, the per-column transpose
raises a TypeError when it subscripts a number, so the chart path emits
only the caught inline error message and renders no chart. -/
theorem chart_flat_data_error (cols : List Json) (vals : List Int)
    (hc : cols ≠ []) (hv : vals ≠ []) :
    write_answer (.obj [("bar", .obj [("columns", .arr cols),
        ("data", .arr (vals.map .num))])])
      = .ok [.errorWrite "Error creating bar chart" .typeError]
    ∧ write_answer (.obj [("line", .obj [("columns", .arr cols),
        ("data", .arr (vals.map .num))])])
      = .ok [.errorWrite "Error creating line chart" .typeError] := by
  obtain ⟨c, cs, rfl⟩ := List.exists_cons_of_ne_nil hc
  obtain ⟨v, vs, rfl⟩ := List.exists_cons_of_ne_nil hv
  constructor <;>
    simp [write_answer, answerBranch, tableBranch, barBranch, lineBranch,
      pyContains, lookupField, getItem, barRender, lineRender, barTry, lineTry,
      buildChartDF, pyIter, buildChartCols, listComp, pyIndex]

/-- Witness for C9 at the prompt template's own example payload. -/
theorem chart_flat_data_error_witness :
    write_answer (.obj [("bar", .obj [("columns", .arr [.str "A", .str "B"]),
        ("data", .arr (([25, 24] : List Int).map .num))])])
      = .ok [.errorWrite "Error creating bar chart" .typeError]
    ∧ write_answer (.obj [("line", .obj [("columns", .arr [.str "A", .str "B"]),
        ("data", .arr (([25, 24] : List Int).map .num))])])
      = .ok [.errorWrite "Error creating line chart" .typeError] :=
  chart_flat_data_error [.str "A", .str "B"] [25, 24] (by simp) (by simp)

/-- C10: a valid JSON input that does not begin with an opening brace and
encodes a non-object decodes to a value that is not a dict at all, so the
declared dict return type of decode_response is not an invariant. -/
theorem decode_response_not_dict :
    decode_response "[1, 2]" = .arr [.num 1, .num 2]
    ∧ isObjDict (.arr [.num 1, .num 2]) = false :=
  ⟨rfl, rfl⟩
